import Mathlib

/-!
Verification development for the lab-lims repository.

The repository exposes two parallel persistence bindings over one logical
schema: a standalone SQLAlchemy mapping (`lims_utils/lims_orm_models.py`)
with a read-only query manager (`lims_utils/lims_db_manager.py`) and a
connection manager (`lims_utils/lims_io_manager.py`), and a Django model
layer (`core/models.py`) with a form (`core/forms.py`) and views
(`core/views.py`).

This file shallowly embeds those components:
  * `Lims.*`       : the SQLAlchemy row types and the `DatabaseManager`
                     query methods, with a database state given explicitly
                     as the lists of rows of each table;
  * `Core.*`       : the Django model rows together with the insert/delete
                     state transitions induced by the declared
                     `unique_together` constraints and `on_delete` policies;
  * `Forms.*`      : `SampleForm.clean_label`;
  * `Views.*`      : the `sample_create_view` request handler;
  * `Connector.*`  : `LimsConnector` configuration resolution and engine
                     construction.
-/

namespace Lims

/-- Row of `core_core_samples` (`lims_orm_models.Sample`).  Columns not marked
`nullable=False` in the mapping are `Option`-valued. -/
structure Sample where
  id : Nat
  label : Option String
  organism_id : Option Nat
  project_id : Option Nat
  description : Option String
  sample_type_id : Option Nat
  specimen_source_id : Option Nat
deriving Repr, DecidableEq

/-- Row of `core_core_sequence_types` (`lims_orm_models.SequenceType`). -/
structure SequenceType where
  id : Nat
  label : Option String
  abbrev_label : Option String
  active : Option Bool
  description : Option String
deriving Repr, DecidableEq

/-- Row of `core_core_reference_genomes` (`lims_orm_models.ReferenceGenome`). -/
structure ReferenceGenome where
  id : Nat
  label : Option String
  notes : Option String
  organism_id : Option Nat
deriving Repr, DecidableEq

/-- Row of `core_core_coordinate_sets` (`lims_orm_models.CoordinateSet`). -/
structure CoordinateSet where
  id : Nat
  label : Option String
  source_file : Option String
  reference_genome_id : Option Nat
deriving Repr, DecidableEq

/-- Row of `core_core_analysis_types` (`lims_orm_models.AnalysisType`). -/
structure AnalysisType where
  id : Nat
  label : String
  description : Option String
deriving Repr, DecidableEq

/-- Row of `core_core_analysis_output_types` (`lims_orm_models.AnalysisOutputType`). -/
structure AnalysisOutputType where
  id : Nat
  label : String
  description : Option String
deriving Repr, DecidableEq

/-- Row of `core_core_downstream_analysis_file_types` (`lims_orm_models.AnalysisFileType`). -/
structure AnalysisFileType where
  id : Nat
  label : String
  abbrev_label : String
  variant : Int
  description : Option String
deriving Repr, DecidableEq

/-- Row of `core_core_downstream_analysis_files`
(`lims_orm_models.DownstreamAnalysisFile`). -/
structure DownstreamAnalysisFile where
  id : Nat
  file_path : String
  downstream_analysis_file_type_id : Option Nat
  downstream_analysis_id : Option Nat
  include_freq : Int
  description : Option String
deriving Repr, DecidableEq

/-- Row of `core_core_downstream_analysis_types`
(`lims_orm_models.DownstreamAnalysisType`). -/
structure DownstreamAnalysisType where
  id : Nat
  label : Option String
  abbrev_label : Option String
  description : Option String
  active : Option Bool
deriving Repr, DecidableEq

/-- Row of `core_core_downstream_analyses` (`lims_orm_models.DownstreamAnalysis`).
`analysis_date` is abstracted as an integer timestamp. -/
structure DownstreamAnalysis where
  id : Nat
  label : String
  analysis_date : Option Int
  downstream_analysis_type_id : Nat
  sample_id : Option Nat
  base_dir : Option String
  description : Option String
  sequence_type_id : Option Nat
  coordinate_set_id : Option Nat
  reference_genome_id : Option Nat
deriving Repr, DecidableEq

/-- Row of `core_analysis_outputs` (`lims_orm_models.AnalysisOutput`). -/
structure AnalysisOutput where
  id : Nat
  sample_id : Nat
  sequence_type_id : Nat
  analysis_output_type_id : Nat
  downstream_analysis_id : Nat
  is_primary : Bool
deriving Repr, DecidableEq

/-- The visible database state behind a `DatabaseManager` session: the rows of
each table the manager queries.  `session.query(X).all()` returns the
corresponding list. -/
structure LimsDB where
  samples : List Sample
  sequence_types : List SequenceType
  reference_genomes : List ReferenceGenome
  coordinate_sets : List CoordinateSet
  analysis_types : List AnalysisType
  analysis_output_types : List AnalysisOutputType
  analysis_file_types : List AnalysisFileType
  downstream_analysis_files : List DownstreamAnalysisFile
  downstream_analysis_types : List DownstreamAnalysisType
  downstream_analyses : List DownstreamAnalysis
  analysis_outputs : List AnalysisOutput
deriving Repr, DecidableEq

/-- Error raised by the query manager: `sqlalchemy.orm.exc.NoResultFound`. -/
inductive DBError where
  | noResultFound
deriving Repr, DecidableEq

/-- `DatabaseManager.query_all_samples`: return all rows if any; otherwise an
empty list when `tolerant`, else raise `NoResultFound`. -/
def query_all_samples (db : LimsDB) (tolerant : Bool := false) :
    Except DBError (List Sample) :=
  let samples := db.samples
  if !samples.isEmpty then Except.ok samples
  else if tolerant then Except.ok [] else Except.error DBError.noResultFound

/-- `DatabaseManager.query_sample_by_id`: `.filter(Sample.id == sample_id).first()`,
raising `NoResultFound` when no row matches. -/
def query_sample_by_id (db : LimsDB) (sample_id : Nat) : Except DBError Sample :=
  match (db.samples.filter (fun s => s.id == sample_id)).head? with
  | some s => Except.ok s
  | none => Except.error DBError.noResultFound

/-- `DatabaseManager.query_all_sequence_types`. -/
def query_all_sequence_types (db : LimsDB) (tolerant : Bool := false) :
    Except DBError (List SequenceType) :=
  let sequence_types := db.sequence_types
  if !sequence_types.isEmpty then Except.ok sequence_types
  else if tolerant then Except.ok [] else Except.error DBError.noResultFound

/-- `DatabaseManager.query_sequence_type_by_id`. -/
def query_sequence_type_by_id (db : LimsDB) (sequence_type_id : Nat) :
    Except DBError SequenceType :=
  match (db.sequence_types.filter (fun s => s.id == sequence_type_id)).head? with
  | some s => Except.ok s
  | none => Except.error DBError.noResultFound

/-- `DatabaseManager.query_all_reference_genomes`. -/
def query_all_reference_genomes (db : LimsDB) (tolerant : Bool := false) :
    Except DBError (List ReferenceGenome) :=
  let reference_genomes := db.reference_genomes
  if !reference_genomes.isEmpty then Except.ok reference_genomes
  else if tolerant then Except.ok [] else Except.error DBError.noResultFound

/-- `DatabaseManager.query_reference_genome_by_id`. -/
def query_reference_genome_by_id (db : LimsDB) (reference_genome_id : Nat) :
    Except DBError ReferenceGenome :=
  match (db.reference_genomes.filter (fun r => r.id == reference_genome_id)).head? with
  | some r => Except.ok r
  | none => Except.error DBError.noResultFound

/-- `DatabaseManager.query_all_analysis_types`. -/
def query_all_analysis_types (db : LimsDB) (tolerant : Bool := false) :
    Except DBError (List AnalysisType) :=
  let analysis_types := db.analysis_types
  if !analysis_types.isEmpty then Except.ok analysis_types
  else if tolerant then Except.ok [] else Except.error DBError.noResultFound

/-- `DatabaseManager.query_analysis_type_by_id`. -/
def query_analysis_type_by_id (db : LimsDB) (analysis_type_id : Nat) :
    Except DBError AnalysisType :=
  match (db.analysis_types.filter (fun a => a.id == analysis_type_id)).head? with
  | some a => Except.ok a
  | none => Except.error DBError.noResultFound

/-- `DatabaseManager.query_all_analysis_output_types`. -/
def query_all_analysis_output_types (db : LimsDB) (tolerant : Bool := false) :
    Except DBError (List AnalysisOutputType) :=
  let analysis_output_types := db.analysis_output_types
  if !analysis_output_types.isEmpty then Except.ok analysis_output_types
  else if tolerant then Except.ok [] else Except.error DBError.noResultFound

/-- `DatabaseManager.query_analysis_output_type_by_id`. -/
def query_analysis_output_type_by_id (db : LimsDB) (analysis_output_type_id : Nat) :
    Except DBError AnalysisOutputType :=
  match (db.analysis_output_types.filter
      (fun a => a.id == analysis_output_type_id)).head? with
  | some a => Except.ok a
  | none => Except.error DBError.noResultFound

/-- `DatabaseManager.query_all_analysis_file_types`. -/
def query_all_analysis_file_types (db : LimsDB) (tolerant : Bool := false) :
    Except DBError (List AnalysisFileType) :=
  let analysis_file_types := db.analysis_file_types
  if !analysis_file_types.isEmpty then Except.ok analysis_file_types
  else if tolerant then Except.ok [] else Except.error DBError.noResultFound

/-- `DatabaseManager.query_analysis_file_type_by_id`. -/
def query_analysis_file_type_by_id (db : LimsDB) (analysis_file_type_id : Nat) :
    Except DBError AnalysisFileType :=
  match (db.analysis_file_types.filter
      (fun a => a.id == analysis_file_type_id)).head? with
  | some a => Except.ok a
  | none => Except.error DBError.noResultFound

/-- `DatabaseManager.query_all_downstream_analysis_files`. -/
def query_all_downstream_analysis_files (db : LimsDB) (tolerant : Bool := false) :
    Except DBError (List DownstreamAnalysisFile) :=
  let analysis_files := db.downstream_analysis_files
  if !analysis_files.isEmpty then Except.ok analysis_files
  else if tolerant then Except.ok [] else Except.error DBError.noResultFound

/-- `DatabaseManager.query_downstream_analysis_files_by_id`. -/
def query_downstream_analysis_files_by_id (db : LimsDB) (file_id : Nat) :
    Except DBError DownstreamAnalysisFile :=
  match (db.downstream_analysis_files.filter (fun f => f.id == file_id)).head? with
  | some f => Except.ok f
  | none => Except.error DBError.noResultFound

/-- `DatabaseManager.query_all_downstream_analysis`. -/
def query_all_downstream_analysis (db : LimsDB) (tolerant : Bool := false) :
    Except DBError (List DownstreamAnalysis) :=
  let analyses := db.downstream_analyses
  if !analyses.isEmpty then Except.ok analyses
  else if tolerant then Except.ok [] else Except.error DBError.noResultFound

/-- `DatabaseManager.query_downstream_analysis_by_id`. -/
def query_downstream_analysis_by_id (db : LimsDB) (analysis_id : Nat) :
    Except DBError DownstreamAnalysis :=
  match (db.downstream_analyses.filter (fun a => a.id == analysis_id)).head? with
  | some a => Except.ok a
  | none => Except.error DBError.noResultFound

/-- `DatabaseManager.query_all_coordinate_sets`. -/
def query_all_coordinate_sets (db : LimsDB) (tolerant : Bool := false) :
    Except DBError (List CoordinateSet) :=
  let coordinate_sets := db.coordinate_sets
  if !coordinate_sets.isEmpty then Except.ok coordinate_sets
  else if tolerant then Except.ok [] else Except.error DBError.noResultFound

/-- `DatabaseManager.query_coordinate_set_by_id`. -/
def query_coordinate_set_by_id (db : LimsDB) (coordinate_set_id : Nat) :
    Except DBError CoordinateSet :=
  match (db.coordinate_sets.filter (fun c => c.id == coordinate_set_id)).head? with
  | some c => Except.ok c
  | none => Except.error DBError.noResultFound

/-- `DatabaseManager.query_all_downstream_analysis_types`. -/
def query_all_downstream_analysis_types (db : LimsDB) (tolerant : Bool := false) :
    Except DBError (List DownstreamAnalysisType) :=
  let downstream_analysis_types := db.downstream_analysis_types
  if !downstream_analysis_types.isEmpty then Except.ok downstream_analysis_types
  else if tolerant then Except.ok [] else Except.error DBError.noResultFound

/-- `DatabaseManager.query_downstream_analysis_type_by_id`. -/
def query_downstream_analysis_type_by_id (db : LimsDB)
    (downstream_analysis_type_id : Nat) : Except DBError DownstreamAnalysisType :=
  match (db.downstream_analysis_types.filter
      (fun t => t.id == downstream_analysis_type_id)).head? with
  | some t => Except.ok t
  | none => Except.error DBError.noResultFound

/-- `DatabaseManager.query_all_analysis_outputs`. -/
def query_all_analysis_outputs (db : LimsDB) (tolerant : Bool := false) :
    Except DBError (List AnalysisOutput) :=
  let analysis_outputs := db.analysis_outputs
  if !analysis_outputs.isEmpty then Except.ok analysis_outputs
  else if tolerant then Except.ok [] else Except.error DBError.noResultFound

/-- `DatabaseManager.query_analysis_output_by_id`. -/
def query_analysis_output_by_id (db : LimsDB) (analysis_output_id : Nat) :
    Except DBError AnalysisOutput :=
  match (db.analysis_outputs.filter (fun a => a.id == analysis_output_id)).head? with
  | some a => Except.ok a
  | none => Except.error DBError.noResultFound

/-- Specification of a tolerant list-all operation over a table: empty table
yields `[]` under `tolerant = true` and `NoResultFound` under
`tolerant = false`; a non-empty table is returned whole either way. -/
def ListAllSpec {α : Type} (table : List α)
    (q : Bool → Except DBError (List α)) : Prop :=
  (table = [] → q true = Except.ok [] ∧ q false = Except.error DBError.noResultFound) ∧
  (table ≠ [] → ∀ tolerant, q tolerant = Except.ok table)

/-- Specification of a get-by-id operation over a table: a missing id always
raises `NoResultFound`, and an id held by exactly one row returns that row. -/
def GetByIdSpec {α : Type} (table : List α) (idOf : α → Nat)
    (q : Nat → Except DBError α) : Prop :=
  (∀ i, (∀ r ∈ table, idOf r ≠ i) → q i = Except.error DBError.noResultFound) ∧
  (∀ i r, r ∈ table → idOf r = i → (∀ r' ∈ table, idOf r' = i → r' = r) →
    q i = Except.ok r)

theorem listAllSpec_of {α : Type} (table : List α) :
    ListAllSpec table (fun tolerant =>
      if !table.isEmpty then Except.ok table
      else if tolerant then Except.ok [] else Except.error DBError.noResultFound) := by
  constructor
  · intro h
    subst h
    simp
  · intro h tolerant
    simp [List.isEmpty_iff, h]

theorem filter_head?_eq_some {α : Type} {table : List α} {p : α → Bool} {r : α}
    (hr : r ∈ table) (hpr : p r = true)
    (huniq : ∀ x ∈ table, p x = true → x = r) :
    (table.filter p).head? = some r := by
  induction table with
  | nil => cases hr
  | cons a l ih =>
    rw [List.filter_cons]
    by_cases hpa : p a = true
    · simp only [hpa, if_true, List.head?_cons]
      exact congrArg some (huniq a (List.mem_cons_self a l) hpa)
    · simp only [hpa, if_false]
      rcases List.mem_cons.mp hr with h | h
      · exact absurd (h ▸ hpr) hpa
      · exact ih h (fun x hx hpx => huniq x (List.mem_cons_of_mem a hx) hpx)

theorem getByIdSpec_of {α : Type} (table : List α) (idOf : α → Nat)
    (q : Nat → Except DBError α)
    (hq_found : ∀ i r, (table.filter (fun x => idOf x == i)).head? = some r →
      q i = Except.ok r)
    (hq_missing : ∀ i, (table.filter (fun x => idOf x == i)).head? = none →
      q i = Except.error DBError.noResultFound) :
    GetByIdSpec table idOf q := by
  constructor
  · intro i hnone
    apply hq_missing
    have hfil : table.filter (fun x => idOf x == i) = [] := by
      apply List.filter_eq_nil_iff.mpr
      intro a ha
      simpa using hnone a ha
    rw [hfil]
    rfl
  · intro i r hmem hid huniq
    apply hq_found
    apply filter_head?_eq_some hmem
    · simpa using hid
    · intro x hx hpx
      exact huniq x hx (by simpa using hpx)

/-- C1: for every entity type served by the query manager, the list-all
operation on an empty table returns an empty sequence when `tolerant` is true
and fails with `NoResultFound` when `tolerant` is false; on a non-empty table
it returns every row regardless of `tolerant`. -/
theorem query_manager_list_all_contract (db : LimsDB) :
    ListAllSpec db.samples (fun t => query_all_samples db t) ∧
    ListAllSpec db.sequence_types (fun t => query_all_sequence_types db t) ∧
    ListAllSpec db.reference_genomes (fun t => query_all_reference_genomes db t) ∧
    ListAllSpec db.coordinate_sets (fun t => query_all_coordinate_sets db t) ∧
    ListAllSpec db.analysis_types (fun t => query_all_analysis_types db t) ∧
    ListAllSpec db.analysis_output_types (fun t => query_all_analysis_output_types db t) ∧
    ListAllSpec db.analysis_file_types (fun t => query_all_analysis_file_types db t) ∧
    ListAllSpec db.downstream_analysis_files
      (fun t => query_all_downstream_analysis_files db t) ∧
    ListAllSpec db.downstream_analysis_types
      (fun t => query_all_downstream_analysis_types db t) ∧
    ListAllSpec db.downstream_analyses (fun t => query_all_downstream_analysis db t) ∧
    ListAllSpec db.analysis_outputs (fun t => query_all_analysis_outputs db t) :=
  ⟨listAllSpec_of _, listAllSpec_of _, listAllSpec_of _, listAllSpec_of _,
   listAllSpec_of _, listAllSpec_of _, listAllSpec_of _, listAllSpec_of _,
   listAllSpec_of _, listAllSpec_of _, listAllSpec_of _⟩

/-- An entirely empty database state. -/
def emptyLimsDB : LimsDB :=
  ⟨[], [], [], [], [], [], [], [], [], [], []⟩

/-- A sample row used in concrete witnesses. -/
def sampleRow1 : Sample :=
  ⟨1, some "S1", some 1, some 1, none, some 1, some 1⟩

/-- A database holding exactly one sample row. -/
def oneSampleDB : LimsDB :=
  { emptyLimsDB with samples := [sampleRow1] }

/-- Witness for C1 at concrete states: empty table under both flags, and a
populated table under `tolerant = false`. -/
theorem query_manager_list_all_contract_witness :
    query_all_samples emptyLimsDB true = Except.ok [] ∧
    query_all_samples emptyLimsDB false = Except.error DBError.noResultFound ∧
    query_all_samples oneSampleDB false = Except.ok [sampleRow1] := by
  have hempty := (query_manager_list_all_contract emptyLimsDB).1.1 rfl
  have hfull := (query_manager_list_all_contract oneSampleDB).1.2 (by decide) false
  exact ⟨hempty.1, hempty.2, hfull⟩

/-- C2: for every entity type served by the query manager, the get-by-id
operation returns the single row whose primary key equals the given id and
raises `NoResultFound` whenever no row with that id exists; there is no
tolerant parameter on the by-id methods, so the failure is unconditional. -/
theorem query_manager_get_by_id_contract (db : LimsDB) :
    GetByIdSpec db.samples Sample.id (fun i => query_sample_by_id db i) ∧
    GetByIdSpec db.sequence_types SequenceType.id
      (fun i => query_sequence_type_by_id db i) ∧
    GetByIdSpec db.reference_genomes ReferenceGenome.id
      (fun i => query_reference_genome_by_id db i) ∧
    GetByIdSpec db.coordinate_sets CoordinateSet.id
      (fun i => query_coordinate_set_by_id db i) ∧
    GetByIdSpec db.analysis_types AnalysisType.id
      (fun i => query_analysis_type_by_id db i) ∧
    GetByIdSpec db.analysis_output_types AnalysisOutputType.id
      (fun i => query_analysis_output_type_by_id db i) ∧
    GetByIdSpec db.analysis_file_types AnalysisFileType.id
      (fun i => query_analysis_file_type_by_id db i) ∧
    GetByIdSpec db.downstream_analysis_files DownstreamAnalysisFile.id
      (fun i => query_downstream_analysis_files_by_id db i) ∧
    GetByIdSpec db.downstream_analysis_types DownstreamAnalysisType.id
      (fun i => query_downstream_analysis_type_by_id db i) ∧
    GetByIdSpec db.downstream_analyses DownstreamAnalysis.id
      (fun i => query_downstream_analysis_by_id db i) ∧
    GetByIdSpec db.analysis_outputs AnalysisOutput.id
      (fun i => query_analysis_output_by_id db i) := by
  refine ⟨?_, ?_, ?_, ?_, ?_, ?_, ?_, ?_, ?_, ?_, ?_⟩
  · exact getByIdSpec_of _ _ _
      (fun i r h => by simp [query_sample_by_id, h])
      (fun i h => by simp [query_sample_by_id, h])
  · exact getByIdSpec_of _ _ _
      (fun i r h => by simp [query_sequence_type_by_id, h])
      (fun i h => by simp [query_sequence_type_by_id, h])
  · exact getByIdSpec_of _ _ _
      (fun i r h => by simp [query_reference_genome_by_id, h])
      (fun i h => by simp [query_reference_genome_by_id, h])
  · exact getByIdSpec_of _ _ _
      (fun i r h => by simp [query_coordinate_set_by_id, h])
      (fun i h => by simp [query_coordinate_set_by_id, h])
  · exact getByIdSpec_of _ _ _
      (fun i r h => by simp [query_analysis_type_by_id, h])
      (fun i h => by simp [query_analysis_type_by_id, h])
  · exact getByIdSpec_of _ _ _
      (fun i r h => by simp [query_analysis_output_type_by_id, h])
      (fun i h => by simp [query_analysis_output_type_by_id, h])
  · exact getByIdSpec_of _ _ _
      (fun i r h => by simp [query_analysis_file_type_by_id, h])
      (fun i h => by simp [query_analysis_file_type_by_id, h])
  · exact getByIdSpec_of _ _ _
      (fun i r h => by simp [query_downstream_analysis_files_by_id, h])
      (fun i h => by simp [query_downstream_analysis_files_by_id, h])
  · exact getByIdSpec_of _ _ _
      (fun i r h => by simp [query_downstream_analysis_type_by_id, h])
      (fun i h => by simp [query_downstream_analysis_type_by_id, h])
  · exact getByIdSpec_of _ _ _
      (fun i r h => by simp [query_downstream_analysis_by_id, h])
      (fun i h => by simp [query_downstream_analysis_by_id, h])
  · exact getByIdSpec_of _ _ _
      (fun i r h => by simp [query_analysis_output_by_id, h])
      (fun i h => by simp [query_analysis_output_by_id, h])

/-- Witness for C2 at concrete states: a present id is returned and an absent
id raises `NoResultFound`. -/
theorem query_manager_get_by_id_contract_witness :
    query_sample_by_id oneSampleDB 1 = Except.ok sampleRow1 ∧
    query_sample_by_id oneSampleDB 2 = Except.error DBError.noResultFound := by
  have h := (query_manager_get_by_id_contract oneSampleDB).1
  constructor
  · exact h.2 1 sampleRow1 (by decide)
      rfl (by intro r' hr' hid; simp [oneSampleDB, emptyLimsDB] at hr'; exact hr')
  · exact h.1 2 (by intro r hr; simp [oneSampleDB, emptyLimsDB] at hr; subst hr; decide)

end Lims

namespace Core

/-- Row of the Django `Sample` model (`core/models.py`).  All four foreign
keys are mandatory (`on_delete=CASCADE`, no `null=True`). -/
structure Sample where
  id : Nat
  label : String
  organism_id : Nat
  project_id : Nat
  description : Option String
  sample_type_id : Nat
  specimen_source_id : Nat
deriving Repr, DecidableEq

/-- Row of the Django `DownstreamAnalysisType` model. -/
structure DownstreamAnalysisType where
  id : Nat
  label : String
  abbrev_label : String
  description : String
  active : Bool
deriving Repr, DecidableEq

/-- Row of the Django `DownstreamAnalysis` model: `downstream_analysis_type`
is mandatory with `on_delete=PROTECT`; `sample`, `sequence_type`,
`coordinate_set` and `reference_genome` are nullable with
`on_delete=SET_NULL`. -/
structure DownstreamAnalysis where
  id : Nat
  label : String
  analysis_date : Option Int
  downstream_analysis_type_id : Nat
  sample_id : Option Nat
  base_dir : Option String
  description : Option String
  sequence_type_id : Option Nat
  coordinate_set_id : Option Nat
  reference_genome_id : Option Nat
deriving Repr, DecidableEq

/-- Row of the Django `AnalysisOutput` model: every foreign key is mandatory
with `on_delete=CASCADE` (`analysis` points at `DownstreamAnalysis`). -/
structure AnalysisOutput where
  id : Nat
  sample_id : Nat
  sequence_type_id : Nat
  analysis_output_type_id : Nat
  analysis_id : Nat
  is_primary : Bool
deriving Repr, DecidableEq

/-- Row of the Django `DownstreamAnalysisFile` model:
`downstream_analysis_file_type` is `on_delete=PROTECT`,
`downstream_analysis` is `on_delete=CASCADE`, and
`Meta.unique_together = ('file_path', 'downstream_analysis')`. -/
structure DownstreamAnalysisFile where
  id : Nat
  file_path : String
  downstream_analysis_file_type_id : Nat
  downstream_analysis_id : Nat
  include_freq : Int
  description : Option String
deriving Repr, DecidableEq

/-- Row of the Django `AnalysisOutputTypeDownstreamFileType` model:
`Meta.unique_together = ('analysis_output_type', 'analysis_file_type')`. -/
structure AnalysisOutputTypeDownstreamFileType where
  id : Nat
  analysis_output_type_id : Nat
  analysis_file_type_id : Nat
deriving Repr, DecidableEq

/-- The modelled slice of the Django database: the tables involved in the
declared `unique_together` constraints and in the deletion policies around
`DownstreamAnalysis`.  (Tables with no bearing on those rules, such as
`Library` or `Flowcell`, are omitted.) -/
structure CoreDB where
  samples : List Sample
  downstream_analysis_types : List DownstreamAnalysisType
  downstream_analyses : List DownstreamAnalysis
  analysis_outputs : List AnalysisOutput
  downstream_analysis_files : List DownstreamAnalysisFile
  analysis_output_type_downstream_file_types :
    List AnalysisOutputTypeDownstreamFileType
deriving Repr, DecidableEq

/-- Errors surfaced by the relational engine on a write:
`IntegrityError` for a violated unique constraint,
`ProtectedError` for a delete blocked by `on_delete=PROTECT`. -/
inductive WriteError where
  | integrityError
  | protectedError
deriving Repr, DecidableEq

/-- The empty database, the initial state of every lifecycle. -/
def emptyCoreDB : CoreDB := ⟨[], [], [], [], [], []⟩

/-- Plain insert of a `Sample` row. -/
def insert_sample (db : CoreDB) (s : Sample) : CoreDB :=
  { db with samples := s :: db.samples }

/-- Plain insert of a `DownstreamAnalysisType` row. -/
def insert_downstream_analysis_type (db : CoreDB) (t : DownstreamAnalysisType) :
    CoreDB :=
  { db with downstream_analysis_types := t :: db.downstream_analysis_types }

/-- Plain insert of a `DownstreamAnalysis` row. -/
def insert_downstream_analysis (db : CoreDB) (d : DownstreamAnalysis) : CoreDB :=
  { db with downstream_analyses := d :: db.downstream_analyses }

/-- Plain insert of an `AnalysisOutput` row. -/
def insert_analysis_output (db : CoreDB) (o : AnalysisOutput) : CoreDB :=
  { db with analysis_outputs := o :: db.analysis_outputs }

/-- Insert of a `DownstreamAnalysisFile` row.  The engine rejects the write
with an `IntegrityError` when the declared
`unique_together = ('file_path', 'downstream_analysis')` pair collides with
an existing row. -/
def insert_downstream_analysis_file (db : CoreDB) (f : DownstreamAnalysisFile) :
    Except WriteError CoreDB :=
  if db.downstream_analysis_files.any (fun g =>
      g.file_path == f.file_path &&
      g.downstream_analysis_id == f.downstream_analysis_id) then
    Except.error WriteError.integrityError
  else
    Except.ok { db with downstream_analysis_files := f :: db.downstream_analysis_files }

/-- Insert of an `AnalysisOutputTypeDownstreamFileType` row.  The engine
rejects the write when the declared
`unique_together = ('analysis_output_type', 'analysis_file_type')` pair
collides with an existing row. -/
def insert_analysis_output_type_downstream_file_type (db : CoreDB)
    (a : AnalysisOutputTypeDownstreamFileType) : Except WriteError CoreDB :=
  if db.analysis_output_type_downstream_file_types.any (fun b =>
      b.analysis_output_type_id == a.analysis_output_type_id &&
      b.analysis_file_type_id == a.analysis_file_type_id) then
    Except.error WriteError.integrityError
  else
    Except.ok { db with analysis_output_type_downstream_file_types :=
      a :: db.analysis_output_type_downstream_file_types }

/-- Deleting a `DownstreamAnalysis` row.  Django's collector follows the
declared policies: `AnalysisOutput.analysis` and
`DownstreamAnalysisFile.downstream_analysis` are both `on_delete=CASCADE`,
so the referencing rows of those two tables are deleted with it. -/
def delete_downstream_analysis (db : CoreDB) (analysis_id : Nat) : CoreDB :=
  { db with
    downstream_analyses :=
      db.downstream_analyses.filter (fun d => d.id != analysis_id),
    analysis_outputs :=
      db.analysis_outputs.filter (fun o => o.analysis_id != analysis_id),
    downstream_analysis_files :=
      db.downstream_analysis_files.filter
        (fun f => f.downstream_analysis_id != analysis_id) }

/-- Deleting a `Sample` row.  `AnalysisOutput.sample` is `on_delete=CASCADE`,
so referencing analysis outputs are deleted; `DownstreamAnalysis.sample` is
`on_delete=SET_NULL`, so referencing analyses survive with the link nulled.
(Cascades into unmodelled tables such as `Library` are outside this slice.) -/
def delete_sample (db : CoreDB) (sample_id : Nat) : CoreDB :=
  { db with
    samples := db.samples.filter (fun s => s.id != sample_id),
    analysis_outputs :=
      db.analysis_outputs.filter (fun o => o.sample_id != sample_id),
    downstream_analyses := db.downstream_analyses.map (fun d =>
      if d.sample_id == some sample_id then { d with sample_id := none } else d) }

/-- Deleting a `DownstreamAnalysisType` row.
`DownstreamAnalysis.downstream_analysis_type` is `on_delete=PROTECT`, so the
delete raises `ProtectedError` while any `DownstreamAnalysis` references it. -/
def delete_downstream_analysis_type (db : CoreDB) (type_id : Nat) :
    Except WriteError CoreDB :=
  if db.downstream_analyses.any (fun d => d.downstream_analysis_type_id == type_id) then
    Except.error WriteError.protectedError
  else
    Except.ok { db with downstream_analysis_types :=
      db.downstream_analysis_types.filter (fun t => t.id != type_id) }

/-- The states reachable from the empty database through the modelled
inserts and deletes. -/
inductive Reachable : CoreDB → Prop where
  | init : Reachable emptyCoreDB
  | step_insert_sample (db : CoreDB) (s : Sample) :
      Reachable db → Reachable (insert_sample db s)
  | step_insert_downstream_analysis_type (db : CoreDB) (t : DownstreamAnalysisType) :
      Reachable db → Reachable (insert_downstream_analysis_type db t)
  | step_insert_downstream_analysis (db : CoreDB) (d : DownstreamAnalysis) :
      Reachable db → Reachable (insert_downstream_analysis db d)
  | step_insert_analysis_output (db : CoreDB) (o : AnalysisOutput) :
      Reachable db → Reachable (insert_analysis_output db o)
  | step_insert_downstream_analysis_file (db db' : CoreDB)
      (f : DownstreamAnalysisFile) :
      Reachable db → insert_downstream_analysis_file db f = Except.ok db' →
      Reachable db'
  | step_insert_assoc (db db' : CoreDB) (a : AnalysisOutputTypeDownstreamFileType) :
      Reachable db →
      insert_analysis_output_type_downstream_file_type db a = Except.ok db' →
      Reachable db'
  | step_delete_downstream_analysis (db : CoreDB) (i : Nat) :
      Reachable db → Reachable (delete_downstream_analysis db i)
  | step_delete_sample (db : CoreDB) (i : Nat) :
      Reachable db → Reachable (delete_sample db i)
  | step_delete_downstream_analysis_type (db db' : CoreDB) (i : Nat) :
      Reachable db → delete_downstream_analysis_type db i = Except.ok db' →
      Reachable db'

/-- No two `DownstreamAnalysisFile` rows share a
`(file_path, downstream_analysis)` pair. -/
def DafPairsUnique (db : CoreDB) : Prop :=
  db.downstream_analysis_files.Pairwise (fun f g =>
    ¬(f.file_path = g.file_path ∧
      f.downstream_analysis_id = g.downstream_analysis_id))

/-- No two `AnalysisOutputTypeDownstreamFileType` rows share an
`(analysis_output_type, analysis_file_type)` pair. -/
def AssocPairsUnique (db : CoreDB) : Prop :=
  db.analysis_output_type_downstream_file_types.Pairwise (fun a b =>
    ¬(a.analysis_output_type_id = b.analysis_output_type_id ∧
      a.analysis_file_type_id = b.analysis_file_type_id))

/-- C3: inserting a `DownstreamAnalysisFile` whose
`(file_path, downstream_analysis)` pair duplicates an existing row fails, as
does inserting an `AnalysisOutputTypeDownstreamFileType` whose
`(analysis_output_type, analysis_file_type)` pair duplicates an existing
row; and both pair-uniqueness invariants hold in every reachable state. -/
theorem unique_together_pair_contract :
    (∀ (db : CoreDB) (f g : DownstreamAnalysisFile),
      g ∈ db.downstream_analysis_files →
      g.file_path = f.file_path →
      g.downstream_analysis_id = f.downstream_analysis_id →
      insert_downstream_analysis_file db f = Except.error WriteError.integrityError) ∧
    (∀ (db : CoreDB) (a b : AnalysisOutputTypeDownstreamFileType),
      b ∈ db.analysis_output_type_downstream_file_types →
      b.analysis_output_type_id = a.analysis_output_type_id →
      b.analysis_file_type_id = a.analysis_file_type_id →
      insert_analysis_output_type_downstream_file_type db a =
        Except.error WriteError.integrityError) ∧
    (∀ db : CoreDB, Reachable db → DafPairsUnique db ∧ AssocPairsUnique db) := by
  refine ⟨?_, ?_, ?_⟩
  · intro db f g hg hpath hid
    have hany : db.downstream_analysis_files.any (fun g' =>
        g'.file_path == f.file_path &&
        g'.downstream_analysis_id == f.downstream_analysis_id) = true := by
      apply List.any_eq_true.mpr
      exact ⟨g, hg, by simp [hpath, hid]⟩
    simp [insert_downstream_analysis_file, hany]
  · intro db a b hb hout hfile
    have hany : db.analysis_output_type_downstream_file_types.any (fun b' =>
        b'.analysis_output_type_id == a.analysis_output_type_id &&
        b'.analysis_file_type_id == a.analysis_file_type_id) = true := by
      apply List.any_eq_true.mpr
      exact ⟨b, hb, by simp [hout, hfile]⟩
    simp [insert_analysis_output_type_downstream_file_type, hany]
  · intro db hdb
    induction hdb with
    | init =>
      exact ⟨List.Pairwise.nil, List.Pairwise.nil⟩
    | step_insert_sample db s hdb ih =>
      exact ih
    | step_insert_downstream_analysis_type db t hdb ih =>
      exact ih
    | step_insert_downstream_analysis db d hdb ih =>
      exact ih
    | step_insert_analysis_output db o hdb ih =>
      exact ih
    | step_insert_downstream_analysis_file db db' f hdb hins ih =>
      unfold insert_downstream_analysis_file at hins
      by_cases hc : (db.downstream_analysis_files.any (fun g =>
          g.file_path == f.file_path &&
          g.downstream_analysis_id == f.downstream_analysis_id)) = true
      · simp [hc] at hins
      · rw [if_neg hc] at hins
        cases hins
        have hfalse : (db.downstream_analysis_files.any (fun g =>
            g.file_path == f.file_path &&
            g.downstream_analysis_id == f.downstream_analysis_id)) = false := by
          simpa using hc
        refine ⟨List.pairwise_cons.mpr ⟨?_, ih.1⟩, ih.2⟩
        intro g hg hcontra
        have hone := List.any_eq_false.mp hfalse g hg
        simp [hcontra.1, hcontra.2] at hone
    | step_insert_assoc db db' a hdb hins ih =>
      unfold insert_analysis_output_type_downstream_file_type at hins
      by_cases hc : (db.analysis_output_type_downstream_file_types.any (fun b =>
          b.analysis_output_type_id == a.analysis_output_type_id &&
          b.analysis_file_type_id == a.analysis_file_type_id)) = true
      · simp [hc] at hins
      · rw [if_neg hc] at hins
        cases hins
        have hfalse : (db.analysis_output_type_downstream_file_types.any (fun b =>
            b.analysis_output_type_id == a.analysis_output_type_id &&
            b.analysis_file_type_id == a.analysis_file_type_id)) = false := by
          simpa using hc
        refine ⟨ih.1, List.pairwise_cons.mpr ⟨?_, ih.2⟩⟩
        intro b hb hcontra
        have hone := List.any_eq_false.mp hfalse b hb
        simp [hcontra.1, hcontra.2] at hone
    | step_delete_downstream_analysis db i hdb ih =>
      exact ⟨List.Pairwise.sublist (List.filter_sublist _) ih.1, ih.2⟩
    | step_delete_sample db i hdb ih =>
      exact ih
    | step_delete_downstream_analysis_type db db' i hdb hdel ih =>
      unfold delete_downstream_analysis_type at hdel
      by_cases hc : db.downstream_analyses.any
          (fun d => d.downstream_analysis_type_id == i) = true
      · simp [hc] at hdel
      · rw [if_neg (by simp [hc])] at hdel
        cases hdel
        exact ih

/-- A downstream-analysis file used in concrete witnesses. -/
def dafRow1 : DownstreamAnalysisFile := ⟨1, "/data/out/result.vcf", 1, 1, 0, none⟩

/-- An association row used in concrete witnesses. -/
def assocRow1 : AnalysisOutputTypeDownstreamFileType := ⟨1, 1, 1⟩

/-- A state already holding `dafRow1` and `assocRow1`. -/
def coreDB1 : CoreDB :=
  { emptyCoreDB with
    downstream_analysis_files := [dafRow1],
    analysis_output_type_downstream_file_types := [assocRow1] }

/-- Witness for C3: a duplicate `(file_path, downstream_analysis)` insert and
a duplicate `(analysis_output_type, analysis_file_type)` insert both fail on
a concrete state, and the invariant holds at the initial state. -/
theorem unique_together_pair_contract_witness :
    insert_downstream_analysis_file coreDB1
      ⟨2, "/data/out/result.vcf", 2, 1, 1, some "dup"⟩ =
      Except.error WriteError.integrityError ∧
    insert_analysis_output_type_downstream_file_type coreDB1 ⟨2, 1, 1⟩ =
      Except.error WriteError.integrityError ∧
    DafPairsUnique emptyCoreDB ∧ AssocPairsUnique emptyCoreDB := by
  refine ⟨?_, ?_, ?_⟩
  · exact unique_together_pair_contract.1 coreDB1 _ dafRow1
      (by simp [coreDB1]) rfl rfl
  · exact unique_together_pair_contract.2.1 coreDB1 _ assocRow1
      (by simp [coreDB1]) rfl rfl
  · exact unique_together_pair_contract.2.2 emptyCoreDB Reachable.init

/-- C4: deleting a `DownstreamAnalysis` deletes every `AnalysisOutput`
referencing it; deleting a `Sample` referenced by a `DownstreamAnalysis`
leaves that analysis row present with its sample link nulled and every other
field unchanged; and deleting the `DownstreamAnalysisType` referenced by a
`DownstreamAnalysis` is rejected with `ProtectedError`. -/
theorem downstream_analysis_deletion_policy (db : CoreDB) (d : DownstreamAnalysis) :
    (∀ o ∈ db.analysis_outputs, o.analysis_id = d.id →
      o ∉ (delete_downstream_analysis db d.id).analysis_outputs) ∧
    (d ∈ db.downstream_analyses → ∀ s : Nat, d.sample_id = some s →
      { d with sample_id := none } ∈ (delete_sample db s).downstream_analyses) ∧
    (d ∈ db.downstream_analyses →
      delete_downstream_analysis_type db d.downstream_analysis_type_id =
        Except.error WriteError.protectedError) := by
  refine ⟨?_, ?_, ?_⟩
  · intro o _ho hid hmem
    have := (List.mem_filter.mp hmem).2
    simp [hid] at this
  · intro hd s hs
    have : ({ d with sample_id := none } : DownstreamAnalysis) =
        (fun d' : DownstreamAnalysis =>
          if d'.sample_id == some s then { d' with sample_id := none } else d') d := by
      simp [hs]
    rw [this]
    exact List.mem_map_of_mem _ hd
  · intro hd
    have hany : db.downstream_analyses.any
        (fun d' => d'.downstream_analysis_type_id == d.downstream_analysis_type_id) =
        true :=
      List.any_eq_true.mpr ⟨d, hd, by simp⟩
    simp [delete_downstream_analysis_type, hany]

/-- A downstream analysis used in concrete witnesses: type 1, sample 2. -/
def daRow1 : DownstreamAnalysis :=
  ⟨3, "exome-call", none, 1, some 2, none, none, none, none, none⟩

/-- An analysis output referencing `daRow1`. -/
def aoRow1 : AnalysisOutput := ⟨4, 2, 1, 1, 3, true⟩

/-- A state holding a sample, a type, `daRow1` and `aoRow1`. -/
def coreDB2 : CoreDB :=
  { emptyCoreDB with
    samples := [⟨2, "S2", 1, 1, none, 1, 1⟩],
    downstream_analysis_types := [⟨1, "variant-calling", "vc", "", true⟩],
    downstream_analyses := [daRow1],
    analysis_outputs := [aoRow1] }

/-- Witness for C4 on a concrete state: the cascade removes the referencing
output, the sample delete nulls the link, and the type delete is blocked. -/
theorem downstream_analysis_deletion_policy_witness :
    aoRow1 ∉ (delete_downstream_analysis coreDB2 3).analysis_outputs ∧
    ({ daRow1 with sample_id := none } : DownstreamAnalysis) ∈
      (delete_sample coreDB2 2).downstream_analyses ∧
    delete_downstream_analysis_type coreDB2 1 =
      Except.error WriteError.protectedError := by
  have h := downstream_analysis_deletion_policy coreDB2 daRow1
  refine ⟨?_, ?_, ?_⟩
  · exact h.1 aoRow1 (by simp [coreDB2]) rfl
  · exact h.2.1 (by simp [coreDB2]) 2 rfl
  · exact h.2.2 (by simp [coreDB2])

end Core

namespace Forms

/-- Python's regex class `\w` on `str` patterns: `[A-Za-z0-9_]` plus every
character the Unicode database classifies as alphanumeric.  The ASCII
fragment is pinned here exactly; the non-ASCII fragment — the Unicode
alphanumeric table, too large to transcribe — is the parameter `uw`,
consulted only above U+007F, so behaviour on ASCII labels never depends on
it. -/
def isPyWordChar (uw : Char → Bool) (c : Char) : Bool :=
  c.isAlphanum || c = '_' || (0x80 ≤ c.toNat && uw c)

/-- Character class of the pattern `[\w-]` in `SampleForm.clean_label`. -/
def isLabelChar (uw : Char → Bool) (c : Char) : Bool :=
  isPyWordChar uw c || c = '-'

/-- Semantics of `re.match(r'^[\w-]+$', label)`: one or more `[\w-]`
characters spanning the whole string, where Python's `$` matches at the end
of the string or just before one trailing newline. -/
def re_match_label (uw : Char → Bool) (cs : List Char) : Bool :=
  match cs.getLast? with
  | none => false
  | some c =>
    if c = '\n' then !cs.dropLast.isEmpty && cs.dropLast.all (isLabelChar uw)
    else cs.all (isLabelChar uw)

/-- The two `ValidationError`s `SampleForm.clean_label` can raise. -/
inductive ValidationError where
  | labelFormat
  | labelTaken
deriving Repr, DecidableEq

/-- `SampleForm.clean_label`: reject a label not matching `^[\w-]+$` (`uw`
is the non-ASCII part of `\w`); then filter existing samples with the same
label, excluding the record being edited when the form is bound to an
instance with a primary key, and reject if any remain. -/
def clean_label (uw : Char → Bool) (label : String)
    (existing : List Core.Sample) (instance_pk : Option Nat) :
    Except ValidationError String :=
  if !(re_match_label uw label.data) then Except.error ValidationError.labelFormat
  else
    let qs : List Core.Sample := existing.filter (fun s => s.label == label)
    let qs : List Core.Sample := match instance_pk with
      | some pk => qs.filter (fun (s : Core.Sample) => s.id != pk)
      | none => qs
    if !qs.isEmpty then Except.error ValidationError.labelTaken
    else Except.ok label

/-- The pattern stated by the spec, rendered from its words: one or more
ASCII letters, digits, underscores, or hyphens (`[A-Za-z0-9_-]+`), matching
the whole label. -/
def spec_label_pattern (cs : List Char) : Bool :=
  !cs.isEmpty && cs.all (fun c => c.isAlphanum || c = '_' || c = '-')

/-- The Latin-1 Supplement letters, a concrete fragment of the Unicode
alphanumeric predicate used to evaluate examples: in U+00C0–U+00FF every
character except `×` (U+00D7) and `÷` (U+00F7) is a Unicode letter, and
CPython's `\w` matches each of them. -/
def latin1LetterWord (c : Char) : Bool :=
  0xC0 ≤ c.toNat && c.toNat ≤ 0xFF && c.toNat != 0xD7 && c.toNat != 0xF7

theorem isLabelChar_ascii (uw : Char → Bool) (c : Char) (hc : c.toNat < 0x80) :
    isLabelChar uw c = (c.isAlphanum || c = '_' || c = '-') := by
  have h8 : decide (0x80 ≤ c.toNat) = false :=
    decide_eq_false (Nat.not_le.mpr hc)
  simp [isLabelChar, isPyWordChar, h8]

theorem isLabelChar_of_spec_char (uw : Char → Bool) (c : Char)
    (h : (c.isAlphanum || c = '_' || c = '-') = true) :
    isLabelChar uw c = true := by
  simp [isLabelChar, isPyWordChar] at h ⊢
  tauto

theorem all_isLabelChar_of_ascii (uw : Char → Bool) (cs : List Char)
    (h : ∀ c ∈ cs, c.toNat < 0x80) :
    cs.all (isLabelChar uw) =
      cs.all (fun c => c.isAlphanum || c = '_' || c = '-') := by
  induction cs with
  | nil => rfl
  | cons a l ih =>
    rw [List.all_cons, List.all_cons,
      isLabelChar_ascii uw a (h a (List.mem_cons_self a l)),
      ih (fun c hc => h c (List.mem_cons_of_mem a hc))]

theorem re_match_label_concat (uw : Char → Bool) (ys : List Char) (y : Char) :
    re_match_label uw (ys ++ [y]) =
      if y = '\n' then !ys.isEmpty && ys.all (isLabelChar uw)
      else (ys ++ [y]).all (isLabelChar uw) := by
  unfold re_match_label
  rw [List.getLast?_concat, List.dropLast_concat]

theorem re_match_label_characterization (uw : Char → Bool) (cs : List Char) :
    re_match_label uw cs = true ↔
      ((!cs.isEmpty && cs.all (isLabelChar uw)) = true ∨
        (cs.getLast? = some '\n' ∧
          (!cs.dropLast.isEmpty && cs.dropLast.all (isLabelChar uw)) = true)) := by
  rcases List.eq_nil_or_concat cs with rfl | ⟨ys, y, rfl⟩
  · simp [re_match_label]
  · rw [List.concat_eq_append, re_match_label_concat,
      List.getLast?_concat, List.dropLast_concat]
    by_cases hy : y = '\n'
    · subst hy
      have hnl : isLabelChar uw '\n' = false := by
        rw [isLabelChar_ascii uw '\n' (by decide)]
        decide
      simp [List.all_append, hnl]
    · simp [hy, List.all_append]

theorem clean_label_format_gate (uw : Char → Bool) (label : String)
    (existing : List Core.Sample) (pk : Option Nat) :
    clean_label uw label existing pk ≠ Except.error ValidationError.labelFormat ↔
      re_match_label uw label.data = true := by
  unfold clean_label
  by_cases h : re_match_label uw label.data = true
  · simp only [h, iff_true, Bool.not_true, Bool.false_eq_true, if_false]
    split <;> simp
  · have h' : re_match_label uw label.data = false := by simpa using h
    simp [h']

/-- C7 (amended): matching the spec's pattern `[A-Za-z0-9_-]+` is always
sufficient to pass `clean_label`'s format validation, whatever the
non-ASCII word class `uw`; for a label consisting of ASCII characters only,
passing is equivalent to matching the pattern either whole or up to one
trailing newline (Python's `$` matches before a final newline); and the
validation additionally accepts non-ASCII Unicode word characters, as in
"café" — Python's `\w` is Unicode-aware.  "abc-123_XYZ" is accepted and
"bad label!" is rejected with a field error. -/
theorem clean_label_format_contract :
    (∀ (uw : Char → Bool) (label : String) (existing : List Core.Sample)
        (pk : Option Nat),
      spec_label_pattern label.data = true →
      clean_label uw label existing pk ≠
        Except.error ValidationError.labelFormat) ∧
    (∀ (uw : Char → Bool) (label : String) (existing : List Core.Sample)
        (pk : Option Nat),
      (∀ c ∈ label.data, c.toNat < 0x80) →
      (clean_label uw label existing pk ≠
          Except.error ValidationError.labelFormat ↔
        (spec_label_pattern label.data = true ∨
          (label.data.getLast? = some '\n' ∧
            spec_label_pattern label.data.dropLast = true)))) ∧
    clean_label latin1LetterWord "abc-123_XYZ" [] none =
      Except.ok "abc-123_XYZ" ∧
    clean_label latin1LetterWord "bad label!" [] none =
      Except.error ValidationError.labelFormat ∧
    clean_label latin1LetterWord "café" [] none = Except.ok "café" := by
  refine ⟨?_, ?_, by rfl, by rfl, by rfl⟩
  · intro uw label existing pk hspec
    rw [clean_label_format_gate, re_match_label_characterization]
    left
    unfold spec_label_pattern at hspec
    rw [Bool.and_eq_true] at hspec ⊢
    refine ⟨hspec.1, ?_⟩
    rw [List.all_eq_true] at hspec ⊢
    intro c hc
    exact isLabelChar_of_spec_char uw c (hspec.2 c hc)
  · intro uw label existing pk hascii
    rw [clean_label_format_gate, re_match_label_characterization]
    unfold spec_label_pattern
    rw [all_isLabelChar_of_ascii uw label.data hascii,
      all_isLabelChar_of_ascii uw label.data.dropLast
        (fun c hc => hascii c ((List.dropLast_sublist label.data).subset hc))]

/-- C7 counterexample: "abc" followed by a newline passes the code's format
validation (Python's `$` matches just before one trailing newline) yet does
not match `[A-Za-z0-9_-]+`; "café" likewise passes — `é` (U+00E9) is a word
character for Python's Unicode-aware `\w`, of which `latin1LetterWord` is a
sound fragment — and also fails the pattern.  So "passes iff matches the
pattern" is false at both inputs. -/
theorem clean_label_format_claim_counterexample :
    clean_label latin1LetterWord "abc\n" [] none = Except.ok "abc\n" ∧
    spec_label_pattern "abc\n".data = false ∧
    clean_label latin1LetterWord "café" [] none = Except.ok "café" ∧
    spec_label_pattern "café".data = false := by
  exact ⟨by rfl, by decide, by rfl, by decide⟩

/-- Witness for C7 at concrete inputs: the sufficiency direction applied to
an ASCII label matching the pattern, and the ASCII equivalence applied to a
label with one trailing newline. -/
theorem clean_label_format_contract_witness :
    clean_label latin1LetterWord "abc-9" [] none ≠
      Except.error ValidationError.labelFormat ∧
    (clean_label latin1LetterWord "abc\n" [] none ≠
        Except.error ValidationError.labelFormat ↔
      (spec_label_pattern "abc\n".data = true ∨
        ("abc\n".data.getLast? = some '\n' ∧
          spec_label_pattern "abc\n".data.dropLast = true))) :=
  ⟨clean_label_format_contract.1 latin1LetterWord "abc-9" [] none (by decide),
   clean_label_format_contract.2.1 latin1LetterWord "abc\n" [] none
     (by decide)⟩

/-- C8: submitting a new Sample (unbound form, no instance pk) whose label
case-sensitively equals an existing row's label is rejected with a field
error, while editing row `k` and resubmitting its own label — which no other
row carries — is accepted; `uw` is any non-ASCII word class. -/
theorem clean_label_uniqueness_contract (uw : Char → Bool) (label : String)
    (existing : List Core.Sample) (k : Nat)
    (hfmt : re_match_label uw label.data = true) :
    ((∃ s ∈ existing, s.label = label) →
      clean_label uw label existing none =
        Except.error ValidationError.labelTaken) ∧
    ((∀ s ∈ existing, s.label = label → s.id = k) →
      clean_label uw label existing (some k) = Except.ok label) := by
  constructor
  · rintro ⟨s, hs, hlab⟩
    have hmem : s ∈ existing.filter (fun s' => s'.label == label) :=
      List.mem_filter.mpr ⟨hs, by simp [hlab]⟩
    have hne : existing.filter (fun s' => s'.label == label) ≠ [] :=
      List.ne_nil_of_mem hmem
    unfold clean_label
    simp only [hfmt, Bool.not_true, Bool.false_eq_true, if_false]
    rw [if_pos (by simpa [List.isEmpty_iff] using hne)]
  · intro hall
    have hnil : (existing.filter (fun s' => s'.label == label)).filter
        (fun s' => s'.id != k) = [] := by
      apply List.filter_eq_nil_iff.mpr
      intro s hs
      have hs' := List.mem_filter.mp hs
      have hid : s.id = k := hall s hs'.1 (by simpa using hs'.2)
      simp [hid]
    unfold clean_label
    simp only [hfmt, Bool.not_true, Bool.false_eq_true, if_false]
    simp [hnil]

/-- A stored sample row used in the C8 witness. -/
def storedSample : Core.Sample := ⟨7, "abc-1", 1, 1, none, 1, 1⟩

/-- Witness for C8 at a concrete table: the duplicate create is rejected and
the self-edit is accepted. -/
theorem clean_label_uniqueness_contract_witness :
    clean_label latin1LetterWord "abc-1" [storedSample] none =
      Except.error ValidationError.labelTaken ∧
    clean_label latin1LetterWord "abc-1" [storedSample] (some 7) =
      Except.ok "abc-1" := by
  have h := clean_label_uniqueness_contract latin1LetterWord "abc-1"
    [storedSample] 7 (by decide)
  exact ⟨h.1 ⟨storedSample, by simp, by decide⟩,
    h.2 (by intro s hs hlab; simp at hs; subst hs; rfl)⟩

end Forms

namespace Views

/-- The POST payload bound into a `SampleForm`: the label text plus the
selected foreign keys; an unselected choice arrives as `none`. -/
structure SampleSubmission where
  label : String
  organism : Option Nat
  project : Option Nat
  description : Option String
  sample_type : Option Nat
  specimen_source : Option Nat
deriving Repr, DecidableEq

/-- `SampleForm.is_valid()` for an unbound (create) form: the required
model fields must be present, `clean_label` must pass (format and
uniqueness, with no instance to exclude), and `clean` re-checks that both
project and organism are selected; `uw` is the non-ASCII part of `\w`. -/
def sample_form_is_valid (uw : Char → Bool) (data : SampleSubmission)
    (existing : List Core.Sample) : Bool :=
  data.label != "" &&
  data.organism.isSome && data.project.isSome &&
  data.sample_type.isSome && data.specimen_source.isSome &&
  (match Forms.clean_label uw data.label existing none with
   | Except.ok _ => true
   | Except.error _ => false)

/-- The row `form.save()` persists for a valid submission (`next_pk` is the
auto-assigned primary key; the `getD 0` defaults are never reached on valid
data, where every select is `some`). -/
def saved_sample (next_pk : Nat) (data : SampleSubmission) : Core.Sample :=
  { id := next_pk,
    label := data.label,
    organism_id := data.organism.getD 0,
    project_id := data.project.getD 0,
    description := data.description,
    sample_type_id := data.sample_type.getD 0,
    specimen_source_id := data.specimen_source.getD 0 }

/-- What the client observes at the end of the request. -/
inductive HttpResponse where
  | redirect (url : String)
  | renderForm (withErrors : Bool)
  | serverError
deriving Repr, DecidableEq

/-- `sample_create_view` on a POST request: if the form validates, save the
row, then call `send_mail(..., fail_silently=False)` — `mail_raises` says
whether that send raises, which aborts the request after the save — then
redirect to `core:sample_success`; if validation fails, re-render the form
with its field errors and persist nothing. -/
def sample_create_view (uw : Char → Bool) (samples : List Core.Sample)
    (next_pk : Nat) (data : SampleSubmission) (mail_raises : Bool) :
    List Core.Sample × HttpResponse :=
  if sample_form_is_valid uw data samples then
    let samples' := saved_sample next_pk data :: samples
    if mail_raises then (samples', HttpResponse.serverError)
    else (samples', HttpResponse.redirect "core:sample_success")
  else (samples, HttpResponse.renderForm true)

/-- C9: when validation succeeds the row is persisted, the redirect to the
success page happens exactly when the notification send does not raise, and
a raising send fails the whole request; when validation fails the form is
re-rendered with errors and the table is unchanged. -/
theorem sample_create_view_contract (uw : Char → Bool)
    (samples : List Core.Sample) (next_pk : Nat) (data : SampleSubmission)
    (mail_raises : Bool) :
    (sample_form_is_valid uw data samples = true →
      (sample_create_view uw samples next_pk data mail_raises).1 =
        saved_sample next_pk data :: samples ∧
      (mail_raises = false →
        (sample_create_view uw samples next_pk data mail_raises).2 =
          HttpResponse.redirect "core:sample_success") ∧
      (mail_raises = true →
        (sample_create_view uw samples next_pk data mail_raises).2 =
          HttpResponse.serverError)) ∧
    (sample_form_is_valid uw data samples = false →
      sample_create_view uw samples next_pk data mail_raises =
        (samples, HttpResponse.renderForm true)) := by
  constructor
  · intro hv
    unfold sample_create_view
    rw [if_pos hv]
    cases mail_raises <;> simp
  · intro hv
    unfold sample_create_view
    rw [if_neg (by simp [hv])]

/-- A submission that validates against an empty table. -/
def validSubmission : SampleSubmission :=
  ⟨"abc-123", some 1, some 1, none, some 1, some 1⟩

/-- A submission whose label fails format validation. -/
def invalidSubmission : SampleSubmission :=
  ⟨"bad label!", some 1, some 1, none, some 1, some 1⟩

/-- Witness for C9 on concrete requests: a valid create persists and
redirects, and an invalid one re-renders without persisting. -/
theorem sample_create_view_contract_witness :
    (sample_create_view Forms.latin1LetterWord [] 1 validSubmission false).1 =
      [saved_sample 1 validSubmission] ∧
    (sample_create_view Forms.latin1LetterWord [] 1 validSubmission false).2 =
      HttpResponse.redirect "core:sample_success" ∧
    sample_create_view Forms.latin1LetterWord [] 1 invalidSubmission false =
      ([], HttpResponse.renderForm true) := by
  have hvalid :
      sample_form_is_valid Forms.latin1LetterWord validSubmission [] = true := by
    rfl
  have hinvalid :
      sample_form_is_valid Forms.latin1LetterWord invalidSubmission [] = false := by
    rfl
  have h1 := (sample_create_view_contract Forms.latin1LetterWord [] 1
    validSubmission false).1 hvalid
  have h2 := (sample_create_view_contract Forms.latin1LetterWord [] 1
    invalidSubmission false).2 hinvalid
  exact ⟨h1.1, h1.2.1 rfl, h2⟩

/-- C10: when the notification send raises after a valid submission, the new
Sample row is still persisted although the request ends in a server error
and never redirects — the persist and the send are not atomic. -/
theorem sample_create_persist_despite_mail_failure (uw : Char → Bool)
    (samples : List Core.Sample) (next_pk : Nat) (data : SampleSubmission)
    (hv : sample_form_is_valid uw data samples = true) :
    saved_sample next_pk data ∈
      (sample_create_view uw samples next_pk data true).1 ∧
    (sample_create_view uw samples next_pk data true).1 ≠ samples ∧
    (sample_create_view uw samples next_pk data true).2 =
      HttpResponse.serverError ∧
    (∀ url, (sample_create_view uw samples next_pk data true).2 ≠
      HttpResponse.redirect url) := by
  unfold sample_create_view
  rw [if_pos hv]
  refine ⟨List.mem_cons_self _ _, ?_, rfl, by intro url h; cases h⟩
  intro h
  exact (List.cons_ne_self _ _) h

/-- Witness for C10 on a concrete request: the mail send raises, the row is
in the table, the response is a server error. -/
theorem sample_create_persist_despite_mail_failure_witness :
    saved_sample 1 validSubmission ∈
      (sample_create_view Forms.latin1LetterWord [] 1 validSubmission true).1 ∧
    (sample_create_view Forms.latin1LetterWord [] 1 validSubmission true).2 =
      HttpResponse.serverError := by
  have h := sample_create_persist_despite_mail_failure Forms.latin1LetterWord
    [] 1 validSubmission (by rfl)
  exact ⟨h.1, h.2.2.1⟩

end Views

namespace Connector

/-- The resolved YAML section for the active environment, read with
`config.get(...)`: an absent key yields `none`. -/
structure DbYamlSection where
  username : Option String
  password : Option String
  host : Option String
  database : Option String
  sslca : Option String
deriving Repr, DecidableEq

/-- The `ValueError` exceptions `LimsConnector` raises. -/
inductive ConnectorError where
  | valueError (msg : String)
deriving Repr, DecidableEq

/-- The constructed SQLAlchemy engine: the connection parameters of
`create_engine`, with `ssl_ca` present only when the CA file was non-empty
(Python truthiness of `ssl_args`). -/
structure Engine where
  username : String
  password : String
  host : String
  database : String
  ssl_ca : Option String
deriving Repr, DecidableEq

/-- `LimsConnector.initiate_db`: read the five fields of the resolved
section, raise `ValueError` if any is `None`, then read the CA file
(`read_file` supplies its contents) and build the engine.  The `ValueError`
precedes engine construction, so no session and no query can follow it. -/
def initiate_db (config : DbYamlSection) (read_file : String → String) :
    Except ConnectorError Engine :=
  let username := config.username
  let password := config.password
  let hostname := config.host
  let database := config.database
  let ssl_ca_path := config.sslca
  match username, password, hostname, database, ssl_ca_path with
  | some u, some p, some h, some d, some s =>
    let ssl_ca := read_file s
    Except.ok { username := u, password := p, host := h, database := d,
                ssl_ca := if ssl_ca != "" then some ssl_ca else none }
  | _, _, _, _, _ =>
    Except.error (ConnectorError.valueError
      "Database configuration not properly loaded from YAML file.")

/-- A session bound to a constructed engine. -/
structure DbSession where
  engine : Engine
deriving Repr, DecidableEq

/-- `LimsConnector.get_session`: raises `ValueError` when `initiate_db` was
never called, otherwise binds a fresh session to the engine. -/
def get_session (engine : Option Engine) : Except ConnectorError DbSession :=
  match engine with
  | none => Except.error (ConnectorError.valueError
      "Database engine is not initialized. Call initiate_db first.")
  | some e => Except.ok ⟨e⟩

/-- `DatabaseManager.__init__` in `lims_db_manager.py`: build a connector,
call `initiate_db`, then `get_session`; every query method of the manager
runs on the session this yields, so a failure here precedes any query. -/
def database_manager_init (config : DbYamlSection)
    (read_file : String → String) : Except ConnectorError DbSession :=
  match initiate_db config read_file with
  | Except.error e => Except.error e
  | Except.ok engine => get_session (some engine)

/-- The slice of the process environment `LimsConnector` reads. -/
structure Env where
  lims_environment : Option String
  config_file : Option String
  database_yml_path : Option String
deriving Repr, DecidableEq

/-- `LimsConnector.get_config_file_path`: `CONFIG_FILE` when set and
non-empty (Python truthiness), else `DATABASE_YML_PATH`, else the fixed
default `database.yml`. -/
def get_config_file_path (config_file db_yml : Option String) : String :=
  match config_file with
  | some p => if p != "" then p else db_yml.getD "database.yml"
  | none => db_yml.getD "database.yml"

/-- The state `LimsConnector.__init__` establishes. -/
structure ConnectorState where
  environment : String
  config_file_path : String
  engine : Option Engine
deriving Repr, DecidableEq

/-- `LimsConnector.__init__`: resolves the environment name and the config
file path purely from the process environment.  The signature accepts no
configuration-path parameter, although its own docstring documents an
optional `config_file_path` argument. -/
def lims_connector_init (env : Env) : ConnectorState :=
  { environment := env.lims_environment.getD "production",
    config_file_path := get_config_file_path env.config_file env.database_yml_path,
    engine := none }

/-- C5: engine construction fails with the configuration `ValueError`
whenever any of the five required fields is absent from the resolved YAML
section, and the `DatabaseManager` constructor then fails identically — so
the failure happens before any session exists on which a query could run. -/
theorem initiate_db_requires_all_fields (config : DbYamlSection)
    (read_file : String → String)
    (h : config.username = none ∨ config.password = none ∨ config.host = none ∨
      config.database = none ∨ config.sslca = none) :
    initiate_db config read_file =
      Except.error (ConnectorError.valueError
        "Database configuration not properly loaded from YAML file.") ∧
    database_manager_init config read_file =
      Except.error (ConnectorError.valueError
        "Database configuration not properly loaded from YAML file.") := by
  obtain ⟨u, p, hs, d, s⟩ := config
  have herr : initiate_db ⟨u, p, hs, d, s⟩ read_file =
      Except.error (ConnectorError.valueError
        "Database configuration not properly loaded from YAML file.") := by
    rcases u with _ | u <;> rcases p with _ | p <;> rcases hs with _ | hs <;>
      rcases d with _ | d <;> rcases s with _ | s <;>
      simp_all [initiate_db]
  refine ⟨herr, ?_⟩
  unfold database_manager_init
  rw [herr]

/-- A section missing only the `password` key. -/
def sectionNoPassword : DbYamlSection :=
  ⟨some "lims", none, some "db.example.org", some "lims_db", some "/etc/ca.pem"⟩

/-- Witness for C5: a concrete YAML section missing `password` makes both
engine construction and manager construction fail with the configuration
error. -/
theorem initiate_db_requires_all_fields_witness :
    initiate_db sectionNoPassword (fun _ => "CERT") =
      Except.error (ConnectorError.valueError
        "Database configuration not properly loaded from YAML file.") ∧
    database_manager_init sectionNoPassword (fun _ => "CERT") =
      Except.error (ConnectorError.valueError
        "Database configuration not properly loaded from YAML file.") :=
  initiate_db_requires_all_fields sectionNoPassword (fun _ => "CERT")
    (Or.inr (Or.inl rfl))

/-- C6 (code behaviour at concrete environments): the path the code resolves
is `CONFIG_FILE` when set, else `DATABASE_YML_PATH`, else the fixed default
`database.yml`.  `lims_connector_init` takes only the process environment —
the explicit-path tier the spec lists does not exist in the code. -/
theorem config_file_resolution_order :
    (lims_connector_init ⟨some "staging", some "conf.yml", some "db.yml"⟩).config_file_path
      = "conf.yml" ∧
    (lims_connector_init ⟨none, none, some "db.yml"⟩).config_file_path = "db.yml" ∧
    (lims_connector_init ⟨none, none, none⟩).config_file_path = "database.yml" ∧
    (lims_connector_init ⟨none, some "conf.yml", none⟩).config_file_path
      = "conf.yml" := by
  refine ⟨by rfl, by rfl, by rfl, by rfl⟩

end Connector
